import Mathlib

/-!
# Verification of the faiss-viewer Index Connection & Query Manager

A shallow embedding of `FaissDataProvider` from `src/src/extension.ts`:
the connect pipeline (`connectToIndex`), the query path (`searchVectors`
and the result composition performed by its webview caller), the
accessors (`getAllMemories`) and `disconnect`.

External effects (filesystem, JSON parsing, the faiss-node engine, the
VS Code `globalState` store and the change-event emitter) are modelled
as explicit oracles (`ConnectEnv`, `SearchEnv`) and observable fields of
the outcome records, so every run of the embedded code is a pure,
computable function of the provider state, the oracle and the inputs.
-/

namespace FaissViewer

/-- One entry of the bundle's `memories` array (interface `VectorData`
in `extension.ts`): an id, a numeric vector and open metadata. Only the
identity of a record matters to the properties proved here, so the
metadata blob is omitted and vector components are integers. -/
structure Record where
  id : String
  vector : List Int
  deriving DecidableEq, Repr

/-- The parsed JSON bundle document as `connectToIndex` consumes it:
`data.index` (a base64 string, possibly absent) and `data.memories`
(possibly absent — the code does not validate its presence, it assigns
`this.memories = data.memories` unconditionally). -/
structure BundleDoc where
  index : Option String
  memories : Option (List Record)
  deriving DecidableEq, Repr

/-- An opaque handle to an opened faiss index (`Index` of faiss-node). -/
abbrev EngineHandle := Nat

/-- The errors `connectToIndex` can throw, tagged by throw site. Each
constructor corresponds to one `throw` in the TS source (or to an
exception propagating out of a library call). -/
inductive ConnError where
  /-- `throw new Error('File not found: ...')` — line 43. -/
  | notFound (path : String)
  /-- `JSON.parse` / `fs.readFileSync` threw — line 45. -/
  | malformed (msg : String)
  /-- `throw new Error('No index data found in the JSON file')` — line 53. -/
  | missingIndexPayload
  /-- `fs.writeFileSync(tempPath, indexBuffer)` threw — line 57. -/
  | stagingWriteFailed
  /-- `throw new Error('Failed to create valid temporary index file')` — line 62. -/
  | stagingVerificationFailed
  /-- `Index.read(tempPath)` rejected — line 67. -/
  | engineOpenFailed (msg : String)
  deriving DecidableEq, Repr

/-- The mutable fields of `FaissDataProvider` together with the two
external cells it writes: `savedPath` mirrors
`context.globalState.update('faissDataPath', _)` and `connectedCtx`
mirrors the `'faissViewConnected'` context value. `memories` is
`Option (List Record)` because the TS field can hold `undefined`
(assigned from a document with no `memories` key). -/
structure ProviderState where
  faissIndex : Option EngineHandle
  indexPath : Option String
  memories : Option (List Record)
  savedPath : Option String
  connectedCtx : Bool
  deriving DecidableEq, Repr

/-- Oracle for the external effects of one `connectToIndex` call:
existence of the bundle file, outcome of read+parse, of the staging
write (`writeLeavesFile` says whether a failed write left a partial
file on disk), of `Index.read`, and of the final `fs.unlinkSync`. -/
structure ConnectEnv where
  fileExists : Bool
  parseResult : Except String BundleDoc
  writeOk : Bool
  writeLeavesFile : Bool
  engineOpen : Except String EngineHandle
  unlinkOk : Bool

/-- Status of the staging file of one call: whether `tempPath` was
assigned (line 49), whether a file currently exists at it, and whether
one ever existed during the call. -/
structure TempTrack where
  assigned : Bool
  onDisk : Bool
  created : Bool
  deriving DecidableEq, Repr

/-- Characters Node's forgiving base64 decoder consumes. -/
def base64CharValid (c : Char) : Bool :=
  c.isAlphanum || c = '+' || c = '/'

/-- Length of `Buffer.from(s, 'base64')`: invalid characters are
skipped, every full group of 4 yields 3 bytes, a trailing group of 2
or 3 yields 1 or 2 bytes. This is the `size` the verification step at
line 61 compares with 0. -/
def base64DecodedLen (s : String) : Nat :=
  let m := (s.toList.filter base64CharValid).length
  (m / 4) * 3 + (match m % 4 with | 2 => 1 | 3 => 2 | _ => 0)

/-- The `try` block of `connectToIndex` (lines 37–81): sets
`this.indexPath`, checks existence, parses, assigns `this.memories`,
allocates `tempPath`, rejects a falsy `data.index`, writes and
verifies the staging file, opens the engine, and on full success
persists the path, sets the connected context and fires the change
event. Returns the thrown error or `()`, the provider state as left by
the block, and the staging-file status. -/
def connectTry (st : ProviderState) (env : ConnectEnv) (filePath : String) :
    Except ConnError Unit × ProviderState × TempTrack :=
  let st1 := { st with indexPath := some filePath }
  if !env.fileExists then
    (Except.error (ConnError.notFound filePath), st1, ⟨false, false, false⟩)
  else
    match env.parseResult with
    | Except.error m => (Except.error (ConnError.malformed m), st1, ⟨false, false, false⟩)
    | Except.ok doc =>
      let st2 := { st1 with memories := doc.memories }
      match doc.index with
      | none => (Except.error ConnError.missingIndexPayload, st2, ⟨true, false, false⟩)
      | some idx =>
        if idx = "" then
          (Except.error ConnError.missingIndexPayload, st2, ⟨true, false, false⟩)
        else if !env.writeOk then
          (Except.error ConnError.stagingWriteFailed, st2,
            ⟨true, env.writeLeavesFile, env.writeLeavesFile⟩)
        else if base64DecodedLen idx = 0 then
          (Except.error ConnError.stagingVerificationFailed, st2, ⟨true, true, true⟩)
        else
          match env.engineOpen with
          | Except.error m =>
            (Except.error (ConnError.engineOpenFailed m), st2, ⟨true, true, true⟩)
          | Except.ok h =>
            (Except.ok (),
              { st2 with faissIndex := some h, savedPath := some filePath,
                         connectedCtx := true },
              ⟨true, true, true⟩)

/-- Everything observable about one `connectToIndex` call: its result
(`throw`n error or success), the provider state at return, and the
staging/notification/reporting trace. -/
structure ConnectOutcome where
  result : Except ConnError Unit
  state : ProviderState
  tempWasCreated : Bool
  deleteAttempted : Bool
  deleteFailedLogged : Bool
  tempRemains : Bool
  notifications : Nat
  errorShown : Bool

/-- `FaissDataProvider.connectToIndex` (lines 35–114): runs the `try`
block, on error runs the `catch` (shows the error, clears the saved
path, nulls `indexPath`/`faissIndex`, sets `memories` to `[]`, clears
the connected context, fires the change event, rethrows), then runs
the `finally` (if `tempPath` is set and the file exists, unlink it;
an unlink failure is only warned about). -/
def connectToIndex (st : ProviderState) (env : ConnectEnv) (filePath : String) :
    ConnectOutcome :=
  let r := connectTry st env filePath
  let res := r.1
  let st1 := r.2.1
  let tmp := r.2.2
  let afterCatch :=
    match res with
    | Except.ok _ => (st1, false)
    | Except.error _ =>
      ({ st1 with savedPath := none, indexPath := none, faissIndex := none,
                  memories := some [], connectedCtx := false }, true)
  let attempted := tmp.assigned && tmp.onDisk
  let deleted := attempted && env.unlinkOk
  { result := res
    state := afterCatch.1
    tempWasCreated := tmp.created
    deleteAttempted := attempted
    deleteFailedLogged := attempted && !env.unlinkOk
    tempRemains := tmp.onDisk && !deleted
    notifications := 1
    errorShown := afterCatch.2 }

/-- `FaissDataProvider.getAllMemories` (lines 210–212). -/
def getAllMemories (st : ProviderState) : Option (List Record) :=
  st.memories

/-- The raw result of `Index.search` (interface `SearchResult` of
faiss-node): parallel arrays of row positions and distances. Positions
are integers (faiss pads with `-1` when the index holds fewer items
than requested), distances are opaque numbers just carried through. -/
structure EngineSearchResult where
  indices : List Int
  distances : List Int
  deriving DecidableEq, Repr

/-- Oracle for the engine during a search: the behaviour of
`this.faissIndex.search(vector, k)` — a rejection or a result. -/
structure SearchEnv where
  engineSearch : EngineHandle → List Int → Nat → Except String EngineSearchResult

/-- JavaScript array indexing `rs[p]` with a numeric index: a value in
bounds, `undefined` (here `none`) for a negative or out-of-bounds
index. -/
def jsIndex (rs : List Record) (p : Int) : Option Record :=
  if 0 ≤ p then rs.get? p.toNat else none

/-- One evaluation of the callback `(idx) => this.memories[idx]`
(line 192). When `this.memories` is `undefined` (a bundle with no
`memories` key) the indexing throws a `TypeError`, which the `catch`
of `searchVectors` intercepts. -/
def memLookup (mems : Option (List Record)) (p : Int) :
    Except String (Option Record) :=
  match mems with
  | none => Except.error "TypeError: cannot read properties of undefined"
  | some rs => Except.ok (jsIndex rs p)

/-- The object `searchVectors` resolves with on success (lines
194–198): the engine's indices and distances plus the looked-up
memories, `memories[i] = this.memories[indices[i]]`. -/
structure SearchRes where
  indices : List Int
  distances : List Int
  memories : List (Option Record)
  deriving DecidableEq, Repr

/-- Observable side effects of one `searchVectors` call: whether
`showErrorMessage` ran, and the `k` actually passed to the engine
(`none` when the engine was never consulted). -/
structure SearchLog where
  errorShown : Bool
  requestedK : Option Nat
  deriving DecidableEq, Repr

/-- `FaissDataProvider.searchVectors` (lines 181–204): returns `null`
when `this.faissIndex` is null; otherwise calls
`this.faissIndex.search(vector, 5)` — the count is the literal `5`,
there is no `k` parameter — maps the returned indices through
`this.memories`, and catches any error (engine rejection or the
`TypeError` from an `undefined` memories field), showing it and
returning `null`. No provider field is assigned anywhere in the
method, so the state is returned unchanged on every path. -/
def searchVectors (st : ProviderState) (env : SearchEnv) (v : List Int) :
    Option SearchRes × ProviderState × SearchLog :=
  match st.faissIndex with
  | none => (none, st, ⟨false, none⟩)
  | some h =>
    match env.engineSearch h v 5 with
    | Except.error _ => (none, st, ⟨true, some 5⟩)
    | Except.ok r =>
      match r.indices.mapM (memLookup st.memories) with
      | Except.error _ => (none, st, ⟨true, some 5⟩)
      | Except.ok mems => (some ⟨r.indices, r.distances, mems⟩, st, ⟨false, some 5⟩)

/-- The composition performed by the webview caller of `searchVectors`
(line 719): `results.memories.map((memory, i) => ({memory, distance:
results.distances[i]}))` — pairs `memories[i]` with `distances[i]`,
the distance being `undefined` past the end of the distances array. -/
def composePairs :
    List (Option Record) → List Int → List (Option Record × Option Int)
  | [], _ => []
  | m :: ms, [] => (m, none) :: composePairs ms []
  | m :: ms, d :: ds => (m, some d) :: composePairs ms ds

/-- The composed query result of one successful search. -/
def composeSearchResults (res : SearchRes) : List (Option Record × Option Int) :=
  composePairs res.memories res.distances

/-- `FaissDataProvider.disconnect` (lines 214–229): guarded on
`this.faissIndex` being non-null; inside the guard it nulls the
handle, path and memories, clears the saved path and the connected
context, and calls `refresh()` — which, `indexPath` now being null,
fires the change event. Returns the new state and whether the change
event fired. -/
def disconnect (st : ProviderState) : ProviderState × Bool :=
  match st.faissIndex with
  | some _ =>
    ({ st with faissIndex := none, indexPath := none, memories := some [],
               savedPath := none, connectedCtx := false }, true)
  | none => (st, false)

/-- In every branch of the `try` block, a staging file is on disk at
the end exactly when one was created during the call, and a created
file implies `tempPath` was assigned. -/
theorem connectTry_temp (st : ProviderState) (env : ConnectEnv) (p : String) :
    (connectTry st env p).2.2.onDisk = (connectTry st env p).2.2.created
    ∧ ((connectTry st env p).2.2.created = true →
        (connectTry st env p).2.2.assigned = true) := by
  unfold connectTry
  dsimp only
  split
  · simp
  · split
    · simp
    · split
      · simp
      · split
        · simp
        · split
          · simp
          · split
            · simp
            · split <;> simp

/-- C1: on every run of `connectToIndex` — success or failure at any
step — deletion of the staging file is attempted exactly when one was
created; when the unlink succeeds no staging file remains; an unlink
failure is logged; and the call's result and final state are
independent of whether the unlink succeeds (a cleanup failure never
changes the outcome or masks the original error). -/
theorem connect_staging_cleanup (st : ProviderState) (env : ConnectEnv) (p : String) :
    (connectToIndex st env p).deleteAttempted = (connectToIndex st env p).tempWasCreated
    ∧ (connectToIndex st env p).tempRemains
        = ((connectToIndex st env p).tempWasCreated && !env.unlinkOk)
    ∧ (connectToIndex st env p).deleteFailedLogged
        = ((connectToIndex st env p).tempWasCreated && !env.unlinkOk)
    ∧ (connectToIndex st { env with unlinkOk := true } p).result
        = (connectToIndex st env p).result
    ∧ (connectToIndex st { env with unlinkOk := true } p).state
        = (connectToIndex st env p).state := by
  have h := connectTry_temp st env p
  have henv : connectTry st { env with unlinkOk := true } p = connectTry st env p := rfl
  unfold connectToIndex
  rw [henv]
  rcases hT : connectTry st env p with ⟨res, st1, a, o, c⟩
  rw [hT] at h
  obtain ⟨h1, h2⟩ := h
  dsimp at h1 h2 ⊢
  subst h1
  cases o <;> simp_all

/-- C2: when the bundle file exists and parses but its document lacks
the `index` field, `connectToIndex` fails with the
missing-index-payload error and the final state has no engine handle
and the connected context cleared (an `Error` state, never
`Connected`). -/
theorem connect_missing_index (st : ProviderState) (env : ConnectEnv) (p : String)
    (doc : BundleDoc) (hex : env.fileExists = true)
    (hp : env.parseResult = Except.ok doc) (hi : doc.index = none) :
    (connectToIndex st env p).result = Except.error ConnError.missingIndexPayload
    ∧ (connectToIndex st env p).state.faissIndex = none
    ∧ (connectToIndex st env p).state.connectedCtx = false := by
  unfold connectToIndex connectTry
  simp [hex, hp, hi]

/-- Witness for C2 at a concrete bundle document with no `index`. -/
theorem connect_missing_index_witness :
    (connectToIndex ⟨none, none, some [], none, false⟩
        ⟨true, Except.ok ⟨none, some []⟩, true, false, Except.ok 0, true⟩
        "/b.json").result = Except.error ConnError.missingIndexPayload
    ∧ (connectToIndex ⟨none, none, some [], none, false⟩
        ⟨true, Except.ok ⟨none, some []⟩, true, false, Except.ok 0, true⟩
        "/b.json").state.faissIndex = none
    ∧ (connectToIndex ⟨none, none, some [], none, false⟩
        ⟨true, Except.ok ⟨none, some []⟩, true, false, Except.ok 0, true⟩
        "/b.json").state.connectedCtx = false :=
  connect_missing_index _ _ _ ⟨none, some []⟩ rfl rfl rfl

/-- C3: every failing `connectToIndex` call returns with the retained
records set to the empty sequence, `indexPath` null, no engine handle,
the persisted saved path cleared and the connected context off; one
change notification was fired, the error was shown, and the result
surfaced to the caller is exactly the error the `try` block threw
(rethrown, not swallowed). -/
theorem connect_failure_cleanup (st : ProviderState) (env : ConnectEnv) (p : String)
    (e : ConnError) (h : (connectToIndex st env p).result = Except.error e) :
    (connectToIndex st env p).state = ⟨none, none, some [], none, false⟩
    ∧ (connectToIndex st env p).notifications = 1
    ∧ (connectToIndex st env p).errorShown = true
    ∧ (connectToIndex st env p).result = (connectTry st env p).1 := by
  unfold connectToIndex at h ⊢
  rcases hT : connectTry st env p with ⟨res, st1, tmp⟩
  rw [hT] at h
  cases res with
  | ok u => simp at h
  | error e2 => simp

/-- Witness for C3 at a missing bundle path. -/
theorem connect_failure_cleanup_witness :
    (connectToIndex ⟨some 7, some "/old.json", some [⟨"a", [1]⟩], some "/old.json", true⟩
        ⟨false, Except.error "x", true, false, Except.error "y", true⟩
        "/missing.json").state = ⟨none, none, some [], none, false⟩
    ∧ (connectToIndex ⟨some 7, some "/old.json", some [⟨"a", [1]⟩], some "/old.json", true⟩
        ⟨false, Except.error "x", true, false, Except.error "y", true⟩
        "/missing.json").notifications = 1
    ∧ (connectToIndex ⟨some 7, some "/old.json", some [⟨"a", [1]⟩], some "/old.json", true⟩
        ⟨false, Except.error "x", true, false, Except.error "y", true⟩
        "/missing.json").errorShown = true
    ∧ (connectToIndex ⟨some 7, some "/old.json", some [⟨"a", [1]⟩], some "/old.json", true⟩
        ⟨false, Except.error "x", true, false, Except.error "y", true⟩
        "/missing.json").result
      = (connectTry ⟨some 7, some "/old.json", some [⟨"a", [1]⟩], some "/old.json", true⟩
          ⟨false, Except.error "x", true, false, Except.error "y", true⟩
          "/missing.json").1 :=
  connect_failure_cleanup _ _ _ (ConnError.notFound "/missing.json") rfl

/-- Mapping positions through a present `memories` list never throws:
it is the plain elementwise JavaScript lookup. -/
theorem mapM_memLookup_some (rs : List Record) :
    ∀ ps : List Int, ps.mapM (memLookup (some rs))
      = Except.ok (ps.map (jsIndex rs))
  | [] => rfl
  | p :: ps => by
    rw [List.mapM_cons, mapM_memLookup_some rs ps]
    rfl

/-- A successful `mapM` over `Except` preserves length. -/
theorem mapM_ok_length {α β : Type} (f : α → Except String β) :
    ∀ (ps : List α) (l : List β), ps.mapM f = Except.ok l → l.length = ps.length
  | [], l, h => by
    have h2 : (Except.ok [] : Except String (List β)) = Except.ok l := h
    cases h2
    rfl
  | a :: as, l, h => by
    rw [List.mapM_cons] at h
    cases hf : f a with
    | error m =>
      rw [hf] at h
      have h2 : (Except.error m : Except String (List β)) = Except.ok l := h
      cases h2
    | ok b =>
      rw [hf] at h
      cases hm : as.mapM f with
      | error m =>
        rw [hm] at h
        have h2 : (Except.error m : Except String (List β)) = Except.ok l := h
        cases h2
      | ok bs =>
        rw [hm] at h
        have h2 : (Except.ok (b :: bs) : Except String (List β)) = Except.ok l := h
        cases h2
        simp [mapM_ok_length f as bs hm]

/-- The `i`-th composed pair is `memories[i]` together with
`distances[i]` (which is absent past the end of the distances). -/
theorem composePairs_get? :
    ∀ (ms : List (Option Record)) (ds : List Int) (i : Nat),
      (composePairs ms ds).get? i = (ms.get? i).map (fun m => (m, ds.get? i))
  | [], _, _ => rfl
  | _ :: _, [], 0 => rfl
  | _ :: ms, [], i + 1 => composePairs_get? ms [] i
  | _ :: _, _ :: _, 0 => rfl
  | _ :: ms, _ :: ds, i + 1 => composePairs_get? ms ds i

/-- C7: with no live engine handle, `searchVectors` returns the null
result, shows no error, never consults the engine, and leaves the
state untouched — it does not raise. -/
theorem search_not_connected (st : ProviderState) (env : SearchEnv) (v : List Int)
    (h : st.faissIndex = none) :
    searchVectors st env v = (none, st, ⟨false, none⟩) := by
  simp [searchVectors, h]

/-- Witness for C7 on a concrete disconnected state. -/
theorem search_not_connected_witness :
    searchVectors ⟨none, none, some [], none, false⟩
        ⟨fun _ _ _ => Except.error "unused"⟩ [1, 2]
      = (none, ⟨none, none, some [], none, false⟩, ⟨false, none⟩) :=
  search_not_connected _ _ _ rfl

/-- C8: when the engine rejects during a search on a connected state,
the error is caught and shown (a visible per-call failure, the caller
receives the null result), and the provider state — engine handle,
records, `indexPath`, saved path, context — is returned exactly as it
was. -/
theorem search_engine_error_frame (st : ProviderState) (env : SearchEnv)
    (v : List Int) (h : EngineHandle) (m : String)
    (hc : st.faissIndex = some h)
    (he : env.engineSearch h v 5 = Except.error m) :
    searchVectors st env v = (none, st, ⟨true, some 5⟩) := by
  simp [searchVectors, hc, he]

/-- Witness for C8 on a concrete connected state with a failing
engine. -/
theorem search_engine_error_frame_witness :
    searchVectors ⟨some 3, some "/b", some [⟨"a", [1]⟩], some "/b", true⟩
        ⟨fun _ _ _ => Except.error "bad query"⟩ [9]
      = (none, ⟨some 3, some "/b", some [⟨"a", [1]⟩], some "/b", true⟩,
          ⟨true, some 5⟩) :=
  search_engine_error_frame _ _ _ 3 "bad query" rfl rfl

/-- C4: on a connected state with records `rs`, when the engine
returns positions and distances of equal length and every position is
a valid index into `rs`, the search succeeds and the composed result
pairs, at each `i`, the record `rs[ps[i]]` with the distance `ds[i]`,
in the order the engine returned. -/
theorem search_compose_valid (st : ProviderState) (env : SearchEnv) (v : List Int)
    (h : EngineHandle) (rs : List Record) (r : EngineSearchResult)
    (hc : st.faissIndex = some h) (hm : st.memories = some rs)
    (he : env.engineSearch h v 5 = Except.ok r)
    (hlen : r.indices.length = r.distances.length)
    (hb : ∀ p ∈ r.indices, 0 ≤ p ∧ p.toNat < rs.length) :
    ∃ res, (searchVectors st env v).1 = some res
      ∧ res.indices = r.indices
      ∧ res.distances = r.distances
      ∧ res.memories = r.indices.map (jsIndex rs)
      ∧ ∀ i p, r.indices.get? i = some p →
          ∃ rec, rs.get? p.toNat = some rec
            ∧ (composeSearchResults res).get? i
                = some (some rec, r.distances.get? i) := by
  have hmap : List.mapM.loop (memLookup (some rs)) r.indices []
      = Except.ok (r.indices.map (jsIndex rs)) := mapM_memLookup_some rs r.indices
  refine ⟨⟨r.indices, r.distances, r.indices.map (jsIndex rs)⟩, ?_, rfl, rfl, rfl, ?_⟩
  · simp [searchVectors, hc, he, hm, hmap]
  · intro i p hip
    have hpmem : p ∈ r.indices := List.get?_mem hip
    obtain ⟨hp0, hplt⟩ := hb p hpmem
    refine ⟨rs.get ⟨p.toNat, hplt⟩, List.get?_eq_get hplt, ?_⟩
    show (composePairs (r.indices.map (jsIndex rs)) r.distances).get? i = _
    rw [composePairs_get?, List.get?_map, hip]
    simp [jsIndex, hp0, List.get?_eq_get hplt]

/-- Witness for C4: three records, engine result `[(2, 10), (0, 40)]`,
composed to `[(r2, 10), (r0, 40)]`. -/
theorem search_compose_valid_witness :
    ∃ res,
      (searchVectors
          ⟨some 1, some "/b", some [⟨"r0", [0]⟩, ⟨"r1", [1]⟩, ⟨"r2", [2]⟩],
            some "/b", true⟩
          ⟨fun _ _ _ => Except.ok ⟨[2, 0], [10, 40]⟩⟩ [2]).1 = some res
      ∧ res.indices = [2, 0]
      ∧ res.distances = [10, 40]
      ∧ res.memories
          = [2, 0].map (jsIndex [⟨"r0", [0]⟩, ⟨"r1", [1]⟩, ⟨"r2", [2]⟩])
      ∧ ∀ i p, ([2, 0] : List Int).get? i = some p →
          ∃ rec, ([⟨"r0", [0]⟩, ⟨"r1", [1]⟩, ⟨"r2", [2]⟩] : List Record).get? p.toNat
              = some rec
            ∧ (composeSearchResults res).get? i
                = some (some rec, ([10, 40] : List Int).get? i) :=
  search_compose_valid _ _ _ 1 _ ⟨[2, 0], [10, 40]⟩ rfl rfl rfl (by decide)
    (by decide)

/-- Counterexample to C5: with one retained record and an engine
position `5` (out of bounds), the search does not fail — it resolves
successfully, the out-of-range lookup silently yielding an absent
(`undefined`) record; no error of any kind is raised or shown. -/
theorem search_oob_counterexample :
    (searchVectors ⟨some 0, some "/b", some [⟨"r0", [1]⟩], some "/b", true⟩
        ⟨fun _ _ _ => Except.ok ⟨[5], [2]⟩⟩ [0]).1
      = some ⟨[5], [2], [none]⟩
    ∧ (searchVectors ⟨some 0, some "/b", some [⟨"r0", [1]⟩], some "/b", true⟩
        ⟨fun _ _ _ => Except.ok ⟨[5], [2]⟩⟩ [0]).2.2.errorShown = false :=
  ⟨rfl, rfl⟩

/-- C5 as amended: an engine position outside the bounds of the
retained records does not make the search fail — the call still
resolves with a result, and the entry at that position is the absent
record `none` (JavaScript `undefined`), silently. -/
theorem search_oob_silent (st : ProviderState) (env : SearchEnv) (v : List Int)
    (h : EngineHandle) (rs : List Record) (r : EngineSearchResult)
    (hc : st.faissIndex = some h) (hm : st.memories = some rs)
    (he : env.engineSearch h v 5 = Except.ok r)
    (i : Nat) (p : Int) (hip : r.indices.get? i = some p)
    (hoob : ¬ (0 ≤ p ∧ p.toNat < rs.length)) :
    ∃ res, (searchVectors st env v).1 = some res
      ∧ res.memories.get? i = some none := by
  have hmap : List.mapM.loop (memLookup (some rs)) r.indices []
      = Except.ok (r.indices.map (jsIndex rs)) := mapM_memLookup_some rs r.indices
  refine ⟨⟨r.indices, r.distances, r.indices.map (jsIndex rs)⟩, ?_, ?_⟩
  · simp [searchVectors, hc, he, hm, hmap]
  · rw [List.get?_map, hip]
    by_cases hp : 0 ≤ p
    · have hge : rs.length ≤ p.toNat := le_of_not_lt fun hlt => hoob ⟨hp, hlt⟩
      simp [jsIndex, hp]
      omega
    · simp [jsIndex, hp]

/-- Witness for the amended C5 at the concrete out-of-bounds engine
position `5` against a single-record state. -/
theorem search_oob_silent_witness :
    ∃ res,
      (searchVectors ⟨some 0, some "/b", some [⟨"r0", [1]⟩], some "/b", true⟩
          ⟨fun _ _ _ => Except.ok ⟨[5], [2]⟩⟩ [0]).1 = some res
      ∧ res.memories.get? 0 = some none :=
  search_oob_silent _ _ _ 0 _ ⟨[5], [2]⟩ rfl rfl rfl 0 5 rfl (by decide)

/-- A connected provider state used to probe the search count. -/
def kProbeState : ProviderState := ⟨some 0, some "/b", some [], some "/b", true⟩

/-- An engine that returns exactly as many results as it is asked for,
making the requested neighbour count observable in the output. -/
def kProbeEnv : SearchEnv :=
  ⟨fun _ _ k => Except.ok ⟨(List.range k).map Int.ofNat, (List.range k).map Int.ofNat⟩⟩

/-- Counterexample to C6: `searchVectors` has no result-count
parameter — the engine is always asked for `5` neighbours. Probing
with an engine that returns as many results as requested, the output
holds 5 entries; for a caller-intended bound of `k = 2` the claim
would require at most 2. -/
theorem search_k_counterexample :
    (searchVectors kProbeState kProbeEnv [0]).2.2.requestedK = some 5
    ∧ ((searchVectors kProbeState kProbeEnv [0]).1.map
        (fun res => res.memories.length)) = some 5
    ∧ ¬ ((5 : Nat) ≤ 2) :=
  ⟨rfl, rfl, by decide⟩

/-- C6 as amended: the result count is not caller-supplied — on every
connected search the engine is asked for exactly `5` neighbours — and
the output mirrors the engine result entry for entry: same positions,
same distances in the same order, one looked-up record per position;
hence when the engine honours the bound (at most 5 results, ascending
distances) the output has at most 5 entries in ascending distance
order. -/
theorem search_k_fixed_five (st : ProviderState) (env : SearchEnv) (v : List Int)
    (h : EngineHandle) (hc : st.faissIndex = some h) :
    (searchVectors st env v).2.2.requestedK = some 5
    ∧ ∀ r res, env.engineSearch h v 5 = Except.ok r →
        (searchVectors st env v).1 = some res →
          res.indices = r.indices
          ∧ res.distances = r.distances
          ∧ res.memories.length = r.indices.length
          ∧ (r.indices.length ≤ 5 → res.memories.length ≤ 5)
          ∧ (List.Chain' (fun a b => a ≤ b) r.distances →
              List.Chain' (fun a b => a ≤ b) res.distances) := by
  constructor
  · rcases henv : env.engineSearch h v 5 with m | r
    · simp [searchVectors, hc, henv]
    · rcases hmm : List.mapM.loop (memLookup st.memories) r.indices [] with m2 | mems
      · simp [searchVectors, hc, henv, hmm]
      · simp [searchVectors, hc, henv, hmm]
  · intro r res her hres
    rcases hmm : List.mapM.loop (memLookup st.memories) r.indices [] with m2 | mems
    · simp [searchVectors, hc, her, hmm] at hres
    · simp [searchVectors, hc, her, hmm] at hres
      have hlen := mapM_ok_length (memLookup st.memories) r.indices mems hmm
      subst hres
      exact ⟨rfl, rfl, hlen, fun hb => hlen ▸ hb, fun hs => hs⟩

/-- Witness for the amended C6 against the count-probing engine. -/
theorem search_k_fixed_five_witness :
    (searchVectors kProbeState kProbeEnv [0]).2.2.requestedK = some 5
    ∧ ((⟨(List.range 5).map Int.ofNat, (List.range 5).map Int.ofNat,
          [none, none, none, none, none]⟩ : SearchRes).indices
          = (List.range 5).map Int.ofNat
        ∧ (⟨(List.range 5).map Int.ofNat, (List.range 5).map Int.ofNat,
            [none, none, none, none, none]⟩ : SearchRes).distances
          = (List.range 5).map Int.ofNat
        ∧ (⟨(List.range 5).map Int.ofNat, (List.range 5).map Int.ofNat,
            [none, none, none, none, none]⟩ : SearchRes).memories.length
          = ((List.range 5).map Int.ofNat).length
        ∧ (((List.range 5).map Int.ofNat).length ≤ 5 →
            (⟨(List.range 5).map Int.ofNat, (List.range 5).map Int.ofNat,
              [none, none, none, none, none]⟩ : SearchRes).memories.length ≤ 5)
        ∧ (List.Chain' (fun a b => a ≤ b) ((List.range 5).map Int.ofNat) →
            List.Chain' (fun a b => a ≤ b)
              (⟨(List.range 5).map Int.ofNat, (List.range 5).map Int.ofNat,
                [none, none, none, none, none]⟩ : SearchRes).distances)) :=
  ⟨(search_k_fixed_five kProbeState kProbeEnv [0] 0 rfl).1,
    (search_k_fixed_five kProbeState kProbeEnv [0] 0 rfl).2
      ⟨(List.range 5).map Int.ofNat, (List.range 5).map Int.ofNat⟩
      ⟨(List.range 5).map Int.ofNat, (List.range 5).map Int.ofNat,
        [none, none, none, none, none]⟩ rfl rfl⟩

/-- Counterexample to C9: a failed connect leaves the provider in the
`Error` state (here: connect to a missing path). From that state,
`disconnect()` is a no-op — in particular it fires no change
notification, where the claim requires observers to be notified. -/
theorem disconnect_error_state_counterexample :
    (connectToIndex ⟨none, none, some [], none, false⟩
        ⟨false, Except.error "x", true, false, Except.error "y", true⟩
        "/missing.json").result
      = Except.error (ConnError.notFound "/missing.json")
    ∧ (disconnect (connectToIndex ⟨none, none, some [], none, false⟩
        ⟨false, Except.error "x", true, false, Except.error "y", true⟩
        "/missing.json").state).2 = false
    ∧ disconnect (connectToIndex ⟨none, none, some [], none, false⟩
        ⟨false, Except.error "x", true, false, Except.error "y", true⟩
        "/missing.json").state
      = ((connectToIndex ⟨none, none, some [], none, false⟩
          ⟨false, Except.error "x", true, false, Except.error "y", true⟩
          "/missing.json").state, false) :=
  ⟨rfl, rfl, rfl⟩

/-- C9 as amended: `disconnect()` performs the full teardown — null
engine handle, cleared records and `indexPath`, cleared saved path and
context, one change notification — exactly when an engine handle is
present (the `Connected` state). When no handle is present, which
includes the `Error` state a failed connect leaves behind, it is a
no-op: nothing changes and no notification fires (a failed connect has
already cleared the records, paths and persisted path itself). -/
theorem disconnect_amended (st : ProviderState) :
    (∀ h, st.faissIndex = some h →
        disconnect st = (⟨none, none, some [], none, false⟩, true))
    ∧ (st.faissIndex = none → disconnect st = (st, false)) := by
  constructor
  · intro h hc
    simp [disconnect, hc]
  · intro hn
    simp [disconnect, hn]

/-- Witness for the amended C9: teardown from a concrete connected
state, no-op from a concrete handle-less state. -/
theorem disconnect_amended_witness :
    disconnect ⟨some 4, some "/b", some [⟨"a", [1]⟩], some "/b", true⟩
      = (⟨none, none, some [], none, false⟩, true)
    ∧ disconnect ⟨none, none, some [], none, false⟩
      = (⟨none, none, some [], none, false⟩, false) :=
  ⟨(disconnect_amended _).1 4 rfl, (disconnect_amended _).2 rfl⟩

/-- C10: a bundle whose document has a non-empty, decodable `index`
but no `memories` field at all connects successfully (given the
staging write and engine open succeed), and afterwards
`getAllMemories` returns the absent value (`undefined`), not a
sequence of records. -/
theorem connect_no_memories_field (st : ProviderState) (env : ConnectEnv) (p : String)
    (doc : BundleDoc) (s : String) (h : EngineHandle)
    (hex : env.fileExists = true) (hp : env.parseResult = Except.ok doc)
    (hm : doc.memories = none) (hidx : doc.index = some s)
    (hs : ¬ s = "") (hlen : ¬ base64DecodedLen s = 0)
    (hw : env.writeOk = true) (ho : env.engineOpen = Except.ok h) :
    (connectToIndex st env p).result = Except.ok ()
    ∧ getAllMemories (connectToIndex st env p).state = none
    ∧ (connectToIndex st env p).state.faissIndex = some h := by
  unfold connectToIndex connectTry getAllMemories
  simp [hex, hp, hm, hidx, hs, hlen, hw, ho]

/-- Witness for C10 with the concrete base64 payload `"QUJD"`. -/
theorem connect_no_memories_field_witness :
    (connectToIndex ⟨none, none, some [], none, false⟩
        ⟨true, Except.ok ⟨some "QUJD", none⟩, true, false, Except.ok 2, true⟩
        "/b.json").result = Except.ok ()
    ∧ getAllMemories (connectToIndex ⟨none, none, some [], none, false⟩
        ⟨true, Except.ok ⟨some "QUJD", none⟩, true, false, Except.ok 2, true⟩
        "/b.json").state = none
    ∧ (connectToIndex ⟨none, none, some [], none, false⟩
        ⟨true, Except.ok ⟨some "QUJD", none⟩, true, false, Except.ok 2, true⟩
        "/b.json").state.faissIndex = some 2 :=
  connect_no_memories_field _ _ _ ⟨some "QUJD", none⟩ "QUJD" 2 rfl rfl rfl rfl
    (by decide) (by decide) rfl rfl

end FaissViewer
